import Mathlib

/-
  Verification of the telemetry ingestion and rolling-window visualization
  pipeline of this repository, a shallow embedding of the data paths of the
  three dashboards:

  - esp32-mpu6050.py         (MPU6050Dashboard: serial motion telemetry)
  - obstacle_visualizer.py   (EnhancedSensorGUI: serial ranging telemetry)
  - claude-packetanalyzer.py (PacketAnalyzer: captured network packets)

  Python strings are modelled as lists of characters; Python floats as an
  abstract value type V with an abstract conversion function (the behaviour
  of the builtin float() on a field string); Python ints as Lean Int.  The
  GUI widgets, plotting, file export and the external analysis service are
  out of scope, as are the transports themselves: the embedding starts at
  the already-decoded, stripped text line (serial paths) or the captured
  packet's header structure (packet path).
-/

/-- Python string, modelled as its list of characters. -/
abbrev Str := List Char

/-- Python s.split(",") : splitting the empty string gives one empty field,
and each comma starts a new (possibly empty) field. -/
def splitComma : Str → List Str
  | [] => [[]]
  | c :: rest =>
    if c = ',' then [] :: splitComma rest
    else
      match splitComma rest with
      | [] => [[c]]
      | f :: r => (c :: f) :: r

/-- Python line.startswith("DATA:"), the sentinel test of both serial
dashboards (esp32-mpu6050.py line 239, obstacle_visualizer.py line 130). -/
def startsWithData (line : Str) : Bool :=
  List.isPrefixOf (['D', 'A', 'T', 'A', ':']) line

/-- Model of a Python list comprehension [conv(x) for x in fields] where conv
may raise: the comprehension aborts at the first failing element, so the
result is none when any field fails to convert, and the converted list
otherwise. -/
def mapConv {V : Type} (conv : Str → Option V) : List Str → Option (List V)
  | [] => some []
  | s :: t =>
    match conv s with
    | none => none
    | some v =>
      match mapConv conv t with
      | none => none
      | some vt => some (v :: vt)

/-- Concrete digit-string conversion used to instantiate the abstract Python
numeric conversion (float() or int() on one field) in witnesses and
counterexamples: a nonempty all-digit field converts to the corresponding
integer, anything else fails. -/
def digitsToInt (s : Str) : Option Int :=
  if s ≠ [] ∧ s.all Char.isDigit then
    some (Int.ofNat (s.foldl (fun n c => 10 * n + (c.toNat - 48)) 0))
  else none

namespace RB

/-- Push of one value into a bounded history list as written in
esp32-mpu6050.py lines 252-254 (and again at 257-260, 277-279, 283-298):
append, then pop(0) once when the length exceeds the capacity. -/
def trimPush (cap : Nat) (buf : List α) (v : α) : List α :=
  if (buf ++ [v]).length > cap then (buf ++ [v]).drop 1 else buf ++ [v]

/-- Push of one value into a collections.deque(maxlen=cap)
(obstacle_visualizer.py line 23, claude-packetanalyzer.py lines 21-22):
append, discarding from the left while over capacity. -/
def dequePush (cap : Nat) (buf : List α) (v : α) : List α :=
  if (buf ++ [v]).length > cap then (buf ++ [v]).drop ((buf ++ [v]).length - cap)
  else buf ++ [v]

/-- Sequence of trimPush operations, oldest first. -/
def trimPushAll (cap : Nat) (buf : List α) (vs : List α) : List α :=
  vs.foldl (trimPush cap) buf

/-- Sequence of dequePush operations, oldest first. -/
def dequePushAll (cap : Nat) (buf : List α) (vs : List α) : List α :=
  vs.foldl (dequePush cap) buf

end RB

namespace MPU

/-- Points kept per channel, esp32-mpu6050.py line 52 (self.data_points). -/
def data_points : Nat := 100

/-- Mutable state of MPU6050Dashboard touched by the data path:
initialize_data_storage (lines 50-59) creates the history lists, and
start_data_collection (line 223) sets the running flag read by the
collect_data loop.  Channel values have an abstract numeric type V (Python
floats produced by the builtin float()). -/
structure Store (V : Type) where
  timestamps : List V
  accel_x : List V
  accel_y : List V
  accel_z : List V
  gyro_x : List V
  gyro_y : List V
  gyro_z : List V
  orientation_roll : List V
  orientation_pitch : List V
  temp_data : List V
  motion_data : List V
  running : Bool
deriving DecidableEq

/-- Store as initialize_data_storage leaves it, with running already set to
True by start_data_collection. -/
def initStore (V : Type) : Store V :=
  { timestamps := [], accel_x := [], accel_y := [], accel_z := [],
    gyro_x := [], gyro_y := [], gyro_z := [],
    orientation_roll := [], orientation_pitch := [],
    temp_data := [], motion_data := [], running := true }

/-- Observable classification of one collect_data iteration on one line. -/
inductive Outcome (V : Type) where
  | skip
  | err
  | record (values : List V)
deriving DecidableEq

/-- Channel writes of collect_data lines 250-260: append each of the first
six parsed values to its accelerometer or gyroscope channel, trimming to
data_points. -/
def writeChannels {V : Type} (st : Store V) (v0 v1 v2 v3 v4 v5 : V) : Store V :=
  { st with
    accel_x := RB.trimPush data_points st.accel_x v0,
    accel_y := RB.trimPush data_points st.accel_y v1,
    accel_z := RB.trimPush data_points st.accel_z v2,
    gyro_x := RB.trimPush data_points st.gyro_x v3,
    gyro_y := RB.trimPush data_points st.gyro_y v4,
    gyro_z := RB.trimPush data_points st.gyro_z v5 }

/-- One iteration of MPU6050Dashboard.collect_data (lines 228-272) on one
already-decoded, stripped serial line, with conv the behaviour of float() on
one field.  A line without the sentinel is ignored.  On a sentinel line the
code converts every comma-separated field; a failing float() raises
ValueError, caught by the outer handler (line 268) before any channel is
written.  The debug prints at lines 245-246 index values[0]..values[5], so a
line with fewer than six converted fields raises IndexError there, likewise
caught before any write.  With six or more fields (the code never checks the
count against eight) all six appends succeed and the record is accepted. -/
def step {V : Type} (conv : Str → Option V) (st : Store V) (line : Str) :
    Store V × Outcome V :=
  if startsWithData line then
    match mapConv conv (splitComma (line.drop 5)) with
    | none => (st, .err)
    | some values =>
      match values with
      | v0 :: v1 :: v2 :: v3 :: v4 :: v5 :: _ =>
        (writeChannels st v0 v1 v2 v3 v4 v5, .record values)
      | _ => (st, .err)
  else (st, .skip)

/-- Spec-level pure parse of one raw line, a function of the line (and the
field conversion) alone, used as the refinement target for the purity claim:
the loop's observable classification of a line must coincide with it
whatever the current store. -/
def parseOutcome {V : Type} (conv : Str → Option V) (line : Str) : Outcome V :=
  if startsWithData line then
    match mapConv conv (splitComma (line.drop 5)) with
    | none => Outcome.err
    | some values =>
      match values with
      | _ :: _ :: _ :: _ :: _ :: _ :: _ => Outcome.record values
      | _ => Outcome.err
  else Outcome.skip

/-- MPU6050Dashboard.update_data_storage (lines 274-298): the routine that
would also append the timestamp and the orientation channels.  It is defined
in the source but never invoked, neither from collect_data nor anywhere
else; the live loop writes the channels inline via writeChannels instead.
The pitch trim is conditioned on the roll length, exactly as in the source. -/
def update_data_storage {V : Type} (st : Store V) (timestamp : V)
    (v0 v1 v2 v3 v4 v5 v6 v7 : V) : Store V :=
  { st with
    timestamps := RB.trimPush data_points st.timestamps timestamp,
    accel_x := RB.trimPush data_points st.accel_x v0,
    accel_y := RB.trimPush data_points st.accel_y v1,
    accel_z := RB.trimPush data_points st.accel_z v2,
    gyro_x := RB.trimPush data_points st.gyro_x v3,
    gyro_y := RB.trimPush data_points st.gyro_y v4,
    gyro_z := RB.trimPush data_points st.gyro_z v5,
    orientation_roll := RB.trimPush data_points st.orientation_roll v6,
    orientation_pitch :=
      if (st.orientation_roll ++ [v6]).length > data_points then
        (st.orientation_pitch ++ [v7]).drop 1
      else st.orientation_pitch ++ [v7] }

end MPU

namespace Obs

/-- History capacity, obstacle_visualizer.py line 22 (self.history_length). -/
def history_length : Nat := 100

/-- Mutable state of EnhancedSensorGUI touched by the data path of
update_gui: the current readings vector (line 21) and the four
deque(maxlen=100) histories (line 23), one per sensor, in the order Front,
Right, Left, Back.  Readings are Python ints (int() on a field), modelled
as Lean Int. -/
structure Store where
  sensor_readings : List Int
  hist_front : List Int
  hist_right : List Int
  hist_left : List Int
  hist_back : List Int
deriving DecidableEq

/-- Store as __init__ lines 21-23 create it: four zero readings and four
empty histories. -/
def initStore : Store :=
  { sensor_readings := [0, 0, 0, 0],
    hist_front := [], hist_right := [], hist_left := [], hist_back := [] }

/-- Observable classification of the serial-read part of one update_gui
iteration on one line: non-sentinel lines and sentinel lines with a field
count other than four are ignored without any error (badCount keeps the two
ignored shapes apart); a failing int() raises ValueError, caught by the
handler at line 144, before the new readings list is assigned. -/
inductive Outcome where
  | skip
  | badCount
  | err
  | record (values : List Int)
deriving DecidableEq

/-- Serial-read part of one EnhancedSensorGUI.update_gui iteration (lines
128-137) on one already-decoded, stripped line, with conv the behaviour of
int() on one field.  Only a sentinel line that splits into exactly four
fields, all of which convert, reassigns sensor_readings and appends each
reading to its history deque.  The fallback arm of the four-element match is
unreachable: the conversion preserves the field count (mapConv_length). -/
def step (conv : Str → Option Int) (st : Store) (line : Str) :
    Store × Outcome :=
  if startsWithData line then
    if (splitComma (line.drop 5)).length = 4 then
      match mapConv conv (splitComma (line.drop 5)) with
      | none => (st, .err)
      | some values =>
        match values with
        | [a, b, c, d] =>
          ({ sensor_readings := [a, b, c, d],
             hist_front := RB.dequePush history_length st.hist_front a,
             hist_right := RB.dequePush history_length st.hist_right b,
             hist_left := RB.dequePush history_length st.hist_left c,
             hist_back := RB.dequePush history_length st.hist_back d },
           .record values)
        | _ => (st, .err)
    else (st, .badCount)
  else (st, .skip)

/-- Spec-level pure parse of one raw line for the ranging dashboard, the
refinement target for the purity claim. -/
def parseOutcome (conv : Str → Option Int) (line : Str) : Outcome :=
  if startsWithData line then
    if (splitComma (line.drop 5)).length = 4 then
      match mapConv conv (splitComma (line.drop 5)) with
      | none => Outcome.err
      | some values =>
        match values with
        | [_, _, _, _] => Outcome.record values
        | _ => Outcome.err
    else Outcome.badCount
  else Outcome.skip

end Obs

namespace PA

/-- Header structure of one captured packet as packet_callback and
packet_to_dict inspect it through scapy: which headers are present (IP in
packet, TCP in packet, UDP in packet), the IP endpoints, the total byte
length, the TCP or UDP ports, and the four TCP flag bits. -/
structure Packet where
  hasIP : Bool
  hasTCP : Bool
  hasUDP : Bool
  ipSrc : Str
  ipDst : Str
  pktLen : Nat
  srcPort : Nat
  dstPort : Nat
  flagSYN : Bool
  flagACK : Bool
  flagFIN : Bool
  flagRST : Bool
deriving DecidableEq

/-- Three-way protocol tag of claude-packetanalyzer.py. -/
inductive Proto where
  | TCP
  | UDP
  | Other
deriving DecidableEq

/-- Protocol classification written identically at lines 171 and 319:
"TCP" if TCP in packet else "UDP" if UDP in packet else "Other". -/
def protoOf (p : Packet) : Proto :=
  if p.hasTCP then .TCP else if p.hasUDP then .UDP else .Other

/-- TCP flag bits exported by packet_to_dict (lines 327-332). -/
structure TcpFlags where
  syn : Bool
  ack : Bool
  fin : Bool
  rst : Bool
deriving DecidableEq

/-- Dictionary built by PacketAnalyzer.packet_to_dict (lines 313-340): the
base keys, then the TCP keys (ports and flag bits) when a TCP header is
present, else the UDP keys (ports) when a UDP header is present; a none
field models an absent key. -/
structure PacketDict where
  source_ip : Option Str
  dest_ip : Option Str
  protocol : Proto
  pktLen : Nat
  source_port : Option Nat
  dest_port : Option Nat
  tcp_flags : Option TcpFlags
deriving DecidableEq

/-- PacketAnalyzer.packet_to_dict (lines 313-340). -/
def packet_to_dict (p : Packet) : PacketDict :=
  { source_ip := if p.hasIP then some p.ipSrc else none,
    dest_ip := if p.hasIP then some p.ipDst else none,
    protocol := protoOf p,
    pktLen := p.pktLen,
    source_port :=
      if p.hasTCP then some p.srcPort
      else if p.hasUDP then some p.srcPort else none,
    dest_port :=
      if p.hasTCP then some p.dstPort
      else if p.hasUDP then some p.dstPort else none,
    tcp_flags :=
      if p.hasTCP then some ⟨p.flagSYN, p.flagACK, p.flagFIN, p.flagRST⟩
      else none }

/-- Mutable state of PacketAnalyzer touched by the capture path, from
__init__ lines 19-24: the unbounded packets list, the two
deque(maxlen=100) rolling windows (packet_times is defined but never
appended anywhere in the source), the three protocol counters, and the
capturing flag. -/
structure AState where
  packets : List Packet
  packet_times : List Nat
  packet_sizes : List Nat
  tcp_count : Nat
  udp_count : Nat
  other_count : Nat
  capturing : Bool
deriving DecidableEq

/-- State as __init__ lines 19-24 create it. -/
def initState : AState :=
  { packets := [], packet_times := [], packet_sizes := [],
    tcp_count := 0, udp_count := 0, other_count := 0, capturing := false }

/-- PacketAnalyzer.packet_callback (lines 164-183) on one captured packet:
a packet without an IP header is ignored; otherwise the packet itself is
appended to the unbounded packets list, its length to the packet_sizes
rolling window, and the counter of its protocol tag is incremented.  The
GUI row insert (line 182) is presentation, out of scope. -/
def packet_callback (st : AState) (p : Packet) : AState :=
  if p.hasIP then
    { st with
      packets := st.packets ++ [p],
      packet_sizes := RB.dequePush 100 st.packet_sizes p.pktLen,
      tcp_count := if protoOf p = .TCP then st.tcp_count + 1 else st.tcp_count,
      udp_count := if protoOf p = .UDP then st.udp_count + 1 else st.udp_count,
      other_count :=
        if protoOf p = .Other then st.other_count + 1 else st.other_count }
  else st

/-- Acquisition-loop control state of PacketAnalyzer: the capturing flag and
the number of capture threads spawned so far.  The status-text inserts of
start_capture and stop_capture go to a UI panel (presentation, out of
scope). -/
structure CapState where
  capturing : Bool
  contexts : Nat
deriving DecidableEq

/-- PacketAnalyzer.start_capture (lines 199-206): only when not already
capturing does it set the flag and spawn one capture thread. -/
def start_capture (s : CapState) : CapState :=
  if s.capturing = false then { capturing := true, contexts := s.contexts + 1 }
  else s

/-- PacketAnalyzer.stop_capture (lines 229-232): unconditionally clears the
capturing flag; no thread is touched. -/
def stop_capture (s : CapState) : CapState :=
  { s with capturing := false }

end PA

/-- Concrete captured packet carrying only an IP header, used in witnesses
and counterexamples. -/
def ipOnlyPacket : PA.Packet :=
  { hasIP := true, hasTCP := false, hasUDP := false,
    ipSrc := ['1', '0', '.', '0', '.', '0', '.', '1'],
    ipDst := ['1', '0', '.', '0', '.', '0', '.', '2'],
    pktLen := 60, srcPort := 0, dstPort := 0,
    flagSYN := false, flagACK := false, flagFIN := false, flagRST := false }

theorem RB.trimPush_length_le (cap : Nat) (buf : List α) (v : α)
    (h : buf.length ≤ cap) : (RB.trimPush cap buf v).length ≤ cap := by
  unfold RB.trimPush
  split <;> simp_all

theorem RB.dequePush_eq_trimPush (cap : Nat) (buf : List α) (v : α)
    (h : buf.length ≤ cap) : RB.dequePush cap buf v = RB.trimPush cap buf v := by
  unfold RB.dequePush RB.trimPush
  by_cases hc : (buf ++ [v]).length > cap
  · rw [if_pos hc, if_pos hc]
    have hlen : (buf ++ [v]).length - cap = 1 := by
      simp only [List.length_append, List.length_cons, List.length_nil] at hc ⊢
      omega
    rw [hlen]
  · rw [if_neg hc, if_neg hc]

theorem RB.trimPushAll_eq (cap : Nat) :
    ∀ (vs buf : List α), buf.length ≤ cap →
      RB.trimPushAll cap buf vs = (buf ++ vs).drop ((buf ++ vs).length - cap)
  | [], buf, h => by
    simp [RB.trimPushAll, Nat.sub_eq_zero_of_le h]
  | v :: t, buf, h => by
    have hstep : RB.trimPushAll cap buf (v :: t) =
        RB.trimPushAll cap (RB.trimPush cap buf v) t := rfl
    rw [hstep, RB.trimPushAll_eq cap t _ (RB.trimPush_length_le cap buf v h)]
    unfold RB.trimPush
    by_cases hfull : (buf ++ [v]).length > cap
    · rw [if_pos hfull]
      have h1 : (1 : Nat) ≤ (buf ++ [v]).length := by
        simp [List.length_append]
      rw [← List.drop_append_of_le_length h1, List.drop_drop]
      have hassoc : (buf ++ [v]) ++ t = buf ++ v :: t := by simp
      rw [hassoc]
      congr 1
      simp only [List.length_drop, List.length_append, List.length_cons,
        List.length_nil] at hfull ⊢
      omega
    · rw [if_neg hfull]
      simp only [List.append_assoc, List.singleton_append]

theorem RB.dequePushAll_eq_trimPushAll (cap : Nat) :
    ∀ (vs buf : List α), buf.length ≤ cap →
      RB.dequePushAll cap buf vs = RB.trimPushAll cap buf vs
  | [], _, _ => rfl
  | v :: t, buf, h => by
    have s1 : RB.dequePushAll cap buf (v :: t) =
        RB.dequePushAll cap (RB.dequePush cap buf v) t := rfl
    have s2 : RB.trimPushAll cap buf (v :: t) =
        RB.trimPushAll cap (RB.trimPush cap buf v) t := rfl
    rw [s1, s2, RB.dequePush_eq_trimPush cap buf v h,
      RB.dequePushAll_eq_trimPushAll cap t _ (RB.trimPush_length_le cap buf v h)]

theorem mapConv_length {V : Type} (conv : Str → Option V) :
    ∀ (ss : List Str) (vs : List V), mapConv conv ss = some vs →
      vs.length = ss.length
  | [], vs, h => by
    simp only [mapConv, Option.some.injEq] at h
    simp [← h]
  | s :: t, vs, h => by
    simp only [mapConv] at h
    cases hc : conv s with
    | none => rw [hc] at h; exact absurd h (by simp)
    | some v =>
      rw [hc] at h
      cases hm : mapConv conv t with
      | none => rw [hm] at h; exact absurd h (by simp)
      | some vt =>
        rw [hm] at h
        simp only [Option.some.injEq] at h
        subst h
        simp [mapConv_length conv t vt hm]

theorem PA.packet_callback_packets_replicate (p : PA.Packet)
    (hip : p.hasIP = true) :
    ∀ (n : Nat) (st : PA.AState),
      (List.foldl PA.packet_callback st (List.replicate n p)).packets.length =
        st.packets.length + n
  | 0, st => by simp
  | n + 1, st => by
    rw [List.replicate_succ, List.foldl_cons,
      PA.packet_callback_packets_replicate p hip n (PA.packet_callback st p)]
    unfold PA.packet_callback
    rw [if_pos hip]
    simp only [List.length_append, List.length_cons, List.length_nil]
    omega

theorem mpu_step_snd {V : Type} (conv : Str → Option V) (st : MPU.Store V)
    (line : Str) : (MPU.step conv st line).2 = MPU.parseOutcome conv line := by
  unfold MPU.step MPU.parseOutcome
  by_cases hd : startsWithData line = true
  · rw [if_pos hd, if_pos hd]
    cases hm : mapConv conv (splitComma (line.drop 5)) with
    | none => rfl
    | some values =>
      rcases values with _ | ⟨a, _ | ⟨b, _ | ⟨c, _ | ⟨d, _ | ⟨e, _ | ⟨f, rest⟩⟩⟩⟩⟩⟩ <;> rfl
  · rw [if_neg hd, if_neg hd]

theorem obs_step_snd (conv : Str → Option Int) (st : Obs.Store) (line : Str) :
    (Obs.step conv st line).2 = Obs.parseOutcome conv line := by
  unfold Obs.step Obs.parseOutcome
  by_cases hd : startsWithData line = true
  · rw [if_pos hd, if_pos hd]
    by_cases hc : (splitComma (line.drop 5)).length = 4
    · rw [if_pos hc, if_pos hc]
      cases hm : mapConv conv (splitComma (line.drop 5)) with
      | none => rfl
      | some values =>
        rcases values with _ | ⟨a, _ | ⟨b, _ | ⟨c, _ | ⟨d, _ | ⟨e, rest⟩⟩⟩⟩⟩ <;> rfl
    · rw [if_neg hc, if_neg hc]
  · rw [if_neg hd, if_neg hd]

/-- C1: for every ring-buffered history channel of capacity cap and every
sequence of pushes of length greater than cap starting from the empty
channel, the resulting snapshot has length exactly cap and equals the last
cap pushed values in push (oldest-to-newest) order.  This holds both for the
append-then-pop(0) lists of esp32-mpu6050.py and for the deque(maxlen=cap)
channels of obstacle_visualizer.py and claude-packetanalyzer.py. -/
theorem C1_ring_buffer_keeps_last_cap {α : Type} (cap : Nat) (vs : List α)
    (h : cap < vs.length) :
    (RB.trimPushAll cap [] vs).length = cap ∧
    RB.trimPushAll cap [] vs = vs.drop (vs.length - cap) ∧
    RB.dequePushAll cap [] vs = vs.drop (vs.length - cap) := by
  have he : RB.trimPushAll cap [] vs = vs.drop (vs.length - cap) := by
    have := RB.trimPushAll_eq cap vs [] (by simp)
    simpa using this
  refine ⟨?_, he, ?_⟩
  · rw [he, List.length_drop]
    omega
  · rw [RB.dequePushAll_eq_trimPushAll cap vs [] (by simp)]
    exact he

/-- Witness for C1 at capacity 2 and three pushes. -/
theorem C1_witness :
    (RB.trimPushAll 2 [] [10, 20, 30]).length = 2 ∧
    RB.trimPushAll 2 [] [10, 20, 30] = [10, 20, 30].drop (3 - 2) ∧
    RB.dequePushAll 2 [] [10, 20, 30] = [10, 20, 30].drop (3 - 2) :=
  C1_ring_buffer_keeps_last_cap 2 [10, 20, 30] (by decide)

/-- C2 counterexample: the claim says every sentinel line whose field count
differs from the motion dashboard's eight channels yields a field-count
error and leaves the store unchanged.  On the seven-field line
DATA:1,2,3,4,5,6,7 the code instead accepts a record and appends the first
six fields to the accelerometer and gyroscope channels: collect_data never
compares the field count against eight, and seven fields survive the debug
prints that index values[0]..values[5]. -/
theorem C2_counterexample :
    MPU.step digitsToInt (MPU.initStore Int)
        (['D', 'A', 'T', 'A', ':', '1', ',', '2', ',', '3', ',', '4', ',',
          '5', ',', '6', ',', '7']) =
      ({ MPU.initStore Int with
          accel_x := [1], accel_y := [2], accel_z := [3],
          gyro_x := [4], gyro_y := [5], gyro_z := [6] },
       MPU.Outcome.record [1, 2, 3, 4, 5, 6, 7]) := by
  decide

/-- C2 (amended), stated over three independent input lines so that each
half of the amended claim is universal.  Ranging dashboard: every sentinel
line that does not split into exactly four comma-separated fields —
whatever its fields contain — is silently discarded: the store is unchanged
and the outcome is badCount, not an error value (no FieldCountMismatch
exists in the code).  Motion dashboard: a sentinel line whose fields convert
to fewer than six values leaves the store unchanged with an error outcome
(an IndexError in a debug print, caught before any write); but every
count-mismatched sentinel line whose fields convert to six or more values
is ingested as a record, appending its first six values to the
accelerometer and gyroscope channels. -/
theorem C2_fieldcount_store_unchanged {V : Type} (conv : Str → Option V)
    (convI : Str → Option Int) (st₂ st₃ : MPU.Store V) (ost : Obs.Store)
    (line₁ line₂ line₃ : Str) (values₂ : List V)
    (v0 v1 v2 v3 v4 v5 : V) (rest : List V)
    (hd₁ : startsWithData line₁ = true)
    (hcnt₁ : (splitComma (line₁.drop 5)).length ≠ 4)
    (hd₂ : startsWithData line₂ = true)
    (hmap₂ : mapConv conv (splitComma (line₂.drop 5)) = some values₂)
    (hlen₂ : values₂.length < 6)
    (hd₃ : startsWithData line₃ = true)
    (_hcnt₃ : (splitComma (line₃.drop 5)).length ≠ 8)
    (hmap₃ : mapConv conv (splitComma (line₃.drop 5)) =
      some (v0 :: v1 :: v2 :: v3 :: v4 :: v5 :: rest)) :
    Obs.step convI ost line₁ = (ost, Obs.Outcome.badCount) ∧
    MPU.step conv st₂ line₂ = (st₂, MPU.Outcome.err) ∧
    MPU.step conv st₃ line₃ =
      (MPU.writeChannels st₃ v0 v1 v2 v3 v4 v5,
       MPU.Outcome.record (v0 :: v1 :: v2 :: v3 :: v4 :: v5 :: rest)) := by
  refine ⟨?_, ?_, ?_⟩
  · unfold Obs.step
    rw [if_pos hd₁, if_neg hcnt₁]
  · unfold MPU.step
    rw [if_pos hd₂, hmap₂]
    rcases values₂ with _ | ⟨a, _ | ⟨b, _ | ⟨c, _ | ⟨d, _ | ⟨e, _ | ⟨f, rest₂⟩⟩⟩⟩⟩⟩
    · rfl
    · rfl
    · rfl
    · rfl
    · rfl
    · rfl
    · exfalso
      simp only [List.length_cons] at hlen₂
      omega
  · unfold MPU.step
    rw [if_pos hd₃, hmap₃]

/-- Witness for the amended C2: the three-field line DATA:1,2,3 on the
ranging dashboard, the two-field line DATA:1,2 and the seven-field line
DATA:1,2,3,4,5,6,7 on the motion dashboard. -/
theorem C2_witness :
    Obs.step digitsToInt Obs.initStore
        (['D', 'A', 'T', 'A', ':', '1', ',', '2', ',', '3']) =
      (Obs.initStore, Obs.Outcome.badCount) ∧
    MPU.step digitsToInt (MPU.initStore Int)
        (['D', 'A', 'T', 'A', ':', '1', ',', '2']) =
      (MPU.initStore Int, MPU.Outcome.err) ∧
    MPU.step digitsToInt (MPU.initStore Int)
        (['D', 'A', 'T', 'A', ':', '1', ',', '2', ',', '3', ',', '4', ',',
          '5', ',', '6', ',', '7']) =
      (MPU.writeChannels (MPU.initStore Int) 1 2 3 4 5 6,
       MPU.Outcome.record [1, 2, 3, 4, 5, 6, 7]) :=
  C2_fieldcount_store_unchanged digitsToInt digitsToInt (MPU.initStore Int)
    (MPU.initStore Int) Obs.initStore
    (['D', 'A', 'T', 'A', ':', '1', ',', '2', ',', '3'])
    (['D', 'A', 'T', 'A', ':', '1', ',', '2'])
    (['D', 'A', 'T', 'A', ':', '1', ',', '2', ',', '3', ',', '4', ',',
      '5', ',', '6', ',', '7'])
    [1, 2] 1 2 3 4 5 6 [7]
    (by decide) (by decide) (by decide) (by decide) (by decide) (by decide)
    (by decide) (by decide)

/-- C3 counterexample: the claim says every collection of retained records
outside an explicitly enabled recording mode is bounded by a fixed capacity.
The analyzer's packets list (self.packets, appended at line 177 for every
captured IP packet, gated by no recording mode) exceeds the pipeline's
rolling-history capacity of 100 after 101 captured packets, and grows by one
per packet without bound. -/
theorem C3_counterexample :
    100 < (List.foldl PA.packet_callback PA.initState
        (List.replicate 101 ipOnlyPacket)).packets.length := by
  rw [PA.packet_callback_packets_replicate ipOnlyPacket rfl 101 PA.initState]
  decide

/-- C3 (amended): the rolling windows of the analyzer are bounded — one
packet_callback keeps packet_sizes within its capacity 100 and never touches
packet_times — but the packets list grows by exactly one on every captured
IP packet, without bound and outside any recording mode. -/
theorem C3_rolling_windows_bounded (st : PA.AState) (p : PA.Packet)
    (hsz : st.packet_sizes.length ≤ 100) (hip : p.hasIP = true) :
    (PA.packet_callback st p).packet_sizes.length ≤ 100 ∧
    (PA.packet_callback st p).packet_times = st.packet_times ∧
    (PA.packet_callback st p).packets.length = st.packets.length + 1 := by
  unfold PA.packet_callback
  rw [if_pos hip]
  refine ⟨?_, rfl, by simp⟩
  rw [RB.dequePush_eq_trimPush 100 st.packet_sizes p.pktLen hsz]
  exact RB.trimPush_length_le 100 st.packet_sizes p.pktLen hsz

/-- Witness for the amended C3 on one IP-only packet from the initial
state. -/
theorem C3_witness :
    (PA.packet_callback PA.initState ipOnlyPacket).packet_sizes.length ≤ 100 ∧
    (PA.packet_callback PA.initState ipOnlyPacket).packet_times =
      PA.initState.packet_times ∧
    (PA.packet_callback PA.initState ipOnlyPacket).packets.length =
      PA.initState.packets.length + 1 :=
  C3_rolling_windows_bounded PA.initState ipOnlyPacket (by decide) rfl

/-- C4: for every captured packet with an IP header, the protocol tag is TCP
exactly when a TCP header is present, UDP exactly when no TCP but a UDP
header is present, and Other exactly when neither is present (tie-break
order TCP before UDP before Other); the exported dictionary carries the same
tag, and its TCP-flag entry is absent exactly when the tag is UDP or Other
— in particular a packet classified Other has no TCP-flag fields. -/
theorem C4_protocol_classification (p : PA.Packet) (_hip : p.hasIP = true) :
    (PA.protoOf p = PA.Proto.TCP ↔ p.hasTCP = true) ∧
    (PA.protoOf p = PA.Proto.UDP ↔ (p.hasTCP = false ∧ p.hasUDP = true)) ∧
    (PA.protoOf p = PA.Proto.Other ↔ (p.hasTCP = false ∧ p.hasUDP = false)) ∧
    (PA.packet_to_dict p).protocol = PA.protoOf p ∧
    ((PA.packet_to_dict p).tcp_flags = none ↔
      (PA.protoOf p = PA.Proto.UDP ∨ PA.protoOf p = PA.Proto.Other)) := by
  cases htcp : p.hasTCP <;> cases hudp : p.hasUDP <;>
    simp [PA.protoOf, PA.packet_to_dict, htcp, hudp]

/-- Witness for C4 on the concrete IP-only packet. -/
theorem C4_witness :
    (PA.protoOf ipOnlyPacket = PA.Proto.TCP ↔ ipOnlyPacket.hasTCP = true) ∧
    (PA.protoOf ipOnlyPacket = PA.Proto.UDP ↔
      (ipOnlyPacket.hasTCP = false ∧ ipOnlyPacket.hasUDP = true)) ∧
    (PA.protoOf ipOnlyPacket = PA.Proto.Other ↔
      (ipOnlyPacket.hasTCP = false ∧ ipOnlyPacket.hasUDP = false)) ∧
    (PA.packet_to_dict ipOnlyPacket).protocol = PA.protoOf ipOnlyPacket ∧
    ((PA.packet_to_dict ipOnlyPacket).tcp_flags = none ↔
      (PA.protoOf ipOnlyPacket = PA.Proto.UDP ∨
        PA.protoOf ipOnlyPacket = PA.Proto.Other)) :=
  C4_protocol_classification ipOnlyPacket rfl

/-- C5: for every serial input line that does not begin with the DATA:
sentinel, both serial dashboards skip the line: no record is produced, no
error is raised, and the store (every history channel and the readings
vector — no counter exists in either dashboard) is left unchanged. -/
theorem C5_non_sentinel_skipped {V : Type} (conv : Str → Option V)
    (convI : Str → Option Int) (st : MPU.Store V) (ost : Obs.Store)
    (line : Str) (h : startsWithData line = false) :
    MPU.step conv st line = (st, MPU.Outcome.skip) ∧
    Obs.step convI ost line = (ost, Obs.Outcome.skip) := by
  have hne : ¬ (startsWithData line = true) := by simp [h]
  constructor
  · unfold MPU.step
    rw [if_neg hne]
  · unfold Obs.step
    rw [if_neg hne]

/-- Witness for C5 on a diagnostic line. -/
theorem C5_witness :
    MPU.step digitsToInt (MPU.initStore Int) (['h', 'e', 'l', 'l', 'o']) =
      (MPU.initStore Int, MPU.Outcome.skip) ∧
    Obs.step digitsToInt Obs.initStore (['h', 'e', 'l', 'l', 'o']) =
      (Obs.initStore, Obs.Outcome.skip) :=
  C5_non_sentinel_skipped digitsToInt digitsToInt (MPU.initStore Int)
    Obs.initStore (['h', 'e', 'l', 'l', 'o']) (by decide)

/-- C6 counterexample: the claim says the acquisition loop increments an
error counter on a parse failure.  On the failing line DATA:x the iteration
returns the state completely unchanged — every field, including every
numeric component that could serve as a counter, is identical, and the
running flag stays true — so nothing is incremented; the code only prints
the exception. -/
theorem C6_counterexample :
    MPU.step digitsToInt (MPU.initStore Int) (['D', 'A', 'T', 'A', ':', 'x']) =
      (MPU.initStore Int, MPU.Outcome.err) := by
  decide

/-- C6 (amended): on every input unit whose parse fails, the loop catches the
exception within that iteration and continues with the next unit — the
entire store, including the running flag that keeps the while-loop alive, is
left unchanged, and the error is printed rather than counted (no error
counter exists in the source). -/
theorem C6_parse_error_continues {V : Type} (conv : Str → Option V)
    (st : MPU.Store V) (line : Str)
    (herr : (MPU.step conv st line).2 = MPU.Outcome.err) :
    (MPU.step conv st line).1 = st ∧
    ((MPU.step conv st line).1).running = st.running := by
  have hfst : (MPU.step conv st line).1 = st := by
    unfold MPU.step at herr ⊢
    by_cases hd : startsWithData line = true
    · rw [if_pos hd] at herr ⊢
      cases hm : mapConv conv (splitComma (line.drop 5)) with
      | none => rfl
      | some values =>
        rw [hm] at herr
        rcases values with _ | ⟨a, _ | ⟨b, _ | ⟨c, _ | ⟨d, _ | ⟨e, _ | ⟨f, rest⟩⟩⟩⟩⟩⟩
        · rfl
        · rfl
        · rfl
        · rfl
        · rfl
        · rfl
        · simp at herr
    · rw [if_neg hd]
  exact ⟨hfst, by rw [hfst]⟩

/-- Witness for the amended C6 on a line with an empty field. -/
theorem C6_witness :
    (MPU.step digitsToInt (MPU.initStore Int) (['D', 'A', 'T', 'A', ':', ','])).1 =
      MPU.initStore Int ∧
    ((MPU.step digitsToInt (MPU.initStore Int)
        (['D', 'A', 'T', 'A', ':', ','])).1).running =
      (MPU.initStore Int).running :=
  C6_parse_error_continues digitsToInt (MPU.initStore Int)
    (['D', 'A', 'T', 'A', ':', ',']) (by decide)

/-- C7: Start is idempotent and Stop on an idle loop is a no-op — invoking
start_capture while already capturing leaves the control state unchanged (in
particular no second capture thread is spawned), and invoking stop_capture
while idle leaves it unchanged. -/
theorem C7_start_stop_noop (s t : PA.CapState)
    (hs : s.capturing = true) (ht : t.capturing = false) :
    PA.start_capture s = s ∧ PA.stop_capture t = t := by
  constructor
  · unfold PA.start_capture
    rw [if_neg (by simp [hs])]
  · unfold PA.stop_capture
    cases t
    simp_all

/-- Witness for C7: starting a running state and stopping an idle state. -/
theorem C7_witness :
    PA.start_capture ⟨true, 1⟩ = (⟨true, 1⟩ : PA.CapState) ∧
    PA.stop_capture ⟨false, 0⟩ = (⟨false, 0⟩ : PA.CapState) :=
  C7_start_stop_noop ⟨true, 1⟩ ⟨false, 0⟩ rfl rfl

/-- C8: the parser of each serial dashboard is a pure, deterministic
function of one raw unit — the observable classification of a line coincides
with a function of the line and the field conversion alone, whatever the
current store (so no state is retained across calls, and two invocations on
identical input yield identical results), and it is exactly one of record,
skip (including the silently ignored wrong-count sentinel lines of the
ranging dashboard) or parse error. -/
theorem C8_parser_pure {V : Type} (conv : Str → Option V)
    (convI : Str → Option Int) (line : Str) (st₁ st₂ : MPU.Store V)
    (ost₁ ost₂ : Obs.Store) :
    (MPU.step conv st₁ line).2 = MPU.parseOutcome conv line ∧
    (MPU.step conv st₂ line).2 = MPU.parseOutcome conv line ∧
    (Obs.step convI ost₁ line).2 = Obs.parseOutcome convI line ∧
    (Obs.step convI ost₂ line).2 = Obs.parseOutcome convI line ∧
    (MPU.parseOutcome conv line = MPU.Outcome.skip ∨
      MPU.parseOutcome conv line = MPU.Outcome.err ∨
      ∃ vs, MPU.parseOutcome conv line = MPU.Outcome.record vs) ∧
    (Obs.parseOutcome convI line = Obs.Outcome.skip ∨
      Obs.parseOutcome convI line = Obs.Outcome.badCount ∨
      Obs.parseOutcome convI line = Obs.Outcome.err ∨
      ∃ vs, Obs.parseOutcome convI line = Obs.Outcome.record vs) := by
  refine ⟨mpu_step_snd conv st₁ line, mpu_step_snd conv st₂ line,
    obs_step_snd convI ost₁ line, obs_step_snd convI ost₂ line, ?_, ?_⟩
  · cases hP : MPU.parseOutcome conv line with
    | skip => exact Or.inl rfl
    | err => exact Or.inr (Or.inl rfl)
    | record vs => exact Or.inr (Or.inr ⟨vs, rfl⟩)
  · cases hQ : Obs.parseOutcome convI line with
    | skip => exact Or.inl rfl
    | badCount => exact Or.inr (Or.inl rfl)
    | err => exact Or.inr (Or.inr (Or.inl rfl))
    | record vs => exact Or.inr (Or.inr (Or.inr ⟨vs, rfl⟩))

/-- C9: on a well-formed eight-field sentinel line, one iteration of the
motion dashboard's acquisition loop appends exactly to the six accelerometer
and gyroscope channels; the timestamps, orientation (roll and pitch),
temperature and motion histories — the fields only the never-invoked
update_data_storage would write — and the running flag are untouched, as
the record-update equality shows. -/
theorem C9_loop_writes_only_accel_gyro {V : Type} (conv : Str → Option V)
    (st : MPU.Store V) (line : Str) (v0 v1 v2 v3 v4 v5 v6 v7 : V)
    (hd : startsWithData line = true)
    (hmap : mapConv conv (splitComma (line.drop 5)) =
      some [v0, v1, v2, v3, v4, v5, v6, v7]) :
    MPU.step conv st line =
      ({ st with
          accel_x := RB.trimPush MPU.data_points st.accel_x v0,
          accel_y := RB.trimPush MPU.data_points st.accel_y v1,
          accel_z := RB.trimPush MPU.data_points st.accel_z v2,
          gyro_x := RB.trimPush MPU.data_points st.gyro_x v3,
          gyro_y := RB.trimPush MPU.data_points st.gyro_y v4,
          gyro_z := RB.trimPush MPU.data_points st.gyro_z v5 },
       MPU.Outcome.record [v0, v1, v2, v3, v4, v5, v6, v7]) := by
  unfold MPU.step
  rw [if_pos hd, hmap]
  rfl

/-- Witness for C9 on the eight-field line DATA:1,2,3,4,5,6,7,8. -/
theorem C9_witness :
    MPU.step digitsToInt (MPU.initStore Int)
        (['D', 'A', 'T', 'A', ':', '1', ',', '2', ',', '3', ',', '4', ',',
          '5', ',', '6', ',', '7', ',', '8']) =
      ({ MPU.initStore Int with
          accel_x := RB.trimPush MPU.data_points (MPU.initStore Int).accel_x 1,
          accel_y := RB.trimPush MPU.data_points (MPU.initStore Int).accel_y 2,
          accel_z := RB.trimPush MPU.data_points (MPU.initStore Int).accel_z 3,
          gyro_x := RB.trimPush MPU.data_points (MPU.initStore Int).gyro_x 4,
          gyro_y := RB.trimPush MPU.data_points (MPU.initStore Int).gyro_y 5,
          gyro_z := RB.trimPush MPU.data_points (MPU.initStore Int).gyro_z 6 },
       MPU.Outcome.record [1, 2, 3, 4, 5, 6, 7, 8]) :=
  C9_loop_writes_only_accel_gyro digitsToInt (MPU.initStore Int)
    (['D', 'A', 'T', 'A', ':', '1', ',', '2', ',', '3', ',', '4', ',',
      '5', ',', '6', ',', '7', ',', '8']) 1 2 3 4 5 6 7 8
    (by decide) (by decide)

/-- C10: the ranging dashboard's current-readings vector always has exactly
four elements — it is created with four zero entries, and one update_gui
iteration on any line preserves the length, since the vector is reassigned
only to a four-element list of converted fields. -/
theorem C10_readings_always_four (conv : Str → Option Int) (st : Obs.Store)
    (line : Str) (h : st.sensor_readings.length = 4) :
    Obs.initStore.sensor_readings.length = 4 ∧
    ((Obs.step conv st line).1).sensor_readings.length = 4 := by
  refine ⟨rfl, ?_⟩
  unfold Obs.step
  by_cases hd : startsWithData line = true
  · rw [if_pos hd]
    by_cases hc : (splitComma (line.drop 5)).length = 4
    · rw [if_pos hc]
      cases hm : mapConv conv (splitComma (line.drop 5)) with
      | none => exact h
      | some values =>
        rcases values with _ | ⟨a, _ | ⟨b, _ | ⟨c, _ | ⟨d, _ | ⟨e, rest⟩⟩⟩⟩⟩
        · exact h
        · exact h
        · exact h
        · exact h
        · rfl
        · exact h
    · rw [if_neg hc]
      exact h
  · rw [if_neg hd]
    exact h

/-- Witness for C10 on the line DATA:5,6,7,8 from the initial state. -/
theorem C10_witness :
    Obs.initStore.sensor_readings.length = 4 ∧
    ((Obs.step digitsToInt Obs.initStore
        (['D', 'A', 'T', 'A', ':', '5', ',', '6', ',', '7', ',', '8'])).1).sensor_readings.length = 4 :=
  C10_readings_always_four digitsToInt Obs.initStore
    (['D', 'A', 'T', 'A', ':', '5', ',', '6', ',', '7', ',', '8']) rfl
